import Mathlib

/-!
Verification of the DCC interior-light decoder core (main.cpp):
CV store, function-state cache, luminance tables and light rendering.
Machine integers are modelled as Nat, with explicit reductions modulo
2 to the 16th where the source casts to uint16_t.
-/

set_option maxRecDepth 40000

namespace DCCInterLight

/-- Observable side effects of the handlers, in program order: an
EEPROM.write of a single byte, an EEPROM.put of a block, an assignment to
the cvData value cache, an assignment to the funcCache array, and a call
to updateLights. -/
inductive Event where
  | eepromWrite (addr val : Nat)
  | eepromPut (addr : Nat) (bytes : List Nat)
  | cvCacheWrite (idx val : Nat)
  | funcCacheWrite (grp bits : Nat)
  | render
deriving DecidableEq

/-- Struct cvStruct of the source: per-CV record of the cvData table. -/
structure cvStruct where
  cvIndex : Nat
  cvNr : Nat
  applyDefault : Bool
  writable : Bool
  defaultValue : Nat
  value : Nat
deriving DecidableEq

/-- Default record used to resolve out-of-range table reads in the model. -/
def dRec : cvStruct := ⟨0, 0, false, false, 0, 0⟩

/- Enum cvIndex of the source, in declaration order. -/

def cvPrimaryAddress : Nat := 0

def cvManufacturerVersionNumber : Nat := 1

def cvManufacturerIDNumber : Nat := 2

def cvExtendedAddressMSB : Nat := 3

def cvExtendedAddressLSB : Nat := 4

def cvConsistAddress : Nat := 5

def cvModeControl : Nat := 6

def cvLightBrightness : Nat := 7

def cvLightColorTemperature : Nat := 8

def cvLightFctCtrl : Nat := 9

def cvLightBrightness2 : Nat := 10

def cvLightColorTemperature2 : Nat := 11

def cvLightFctCtrl2 : Nat := 12

def cvLightTest : Nat := 13

/-- The cvData table of the source with the value column abstracted as a
function vs from table position to cached byte: readCVsToCache overwrites
every value field from the EEPROM at startup, so claims quantify over the
cached values while all other columns are the fixed initializers of the
source. -/
def cvDataWith (vs : Nat → Nat) : List cvStruct :=
  [⟨cvPrimaryAddress, 1, true, true, 3, vs 0⟩,
   ⟨cvManufacturerVersionNumber, 7, false, false, 0, vs 1⟩,
   ⟨cvManufacturerIDNumber, 8, false, false, 0, vs 2⟩,
   ⟨cvExtendedAddressMSB, 17, true, true, 0, vs 3⟩,
   ⟨cvExtendedAddressLSB, 18, true, true, 0, vs 4⟩,
   ⟨cvConsistAddress, 19, true, true, 0, vs 5⟩,
   ⟨cvModeControl, 29, true, true, 2, vs 6⟩,
   ⟨cvLightBrightness, 1000, true, true, 50, vs 7⟩,
   ⟨cvLightColorTemperature, 1001, true, true, 255, vs 8⟩,
   ⟨cvLightFctCtrl, 1002, true, true, 1, vs 9⟩,
   ⟨cvLightBrightness2, 1003, true, true, 30, vs 10⟩,
   ⟨cvLightColorTemperature2, 1004, true, true, 255, vs 11⟩,
   ⟨cvLightFctCtrl2, 1005, true, true, 20, vs 12⟩,
   ⟨cvLightTest, 1010, true, true, 0, vs 13⟩]

/-- The cvData table exactly as initialized in the source (value fields 0). -/
def cvData : List cvStruct := cvDataWith (fun _ => 0)

/-- nrCVs of the source: number of records in cvData. -/
def nrCVs : Nat := cvData.length

/-- notifyCVRead of the source: scans cvData for the first record whose
cvNr equals CV and returns its cached value; when no record matches, the
C function flows off the end without a return statement, modelled as none. -/
def notifyCVRead (tbl : List cvStruct) (cv : Nat) : Option Nat :=
  (tbl.find? (fun r => r.cvNr == cv)).map (fun r => r.value)

/-- notifyCVValid of the source: 1 when the CV exists and, for a write
check, is writable; 0 otherwise. -/
def notifyCVValid (tbl : List cvStruct) (cv : Nat) (w : Nat) : Nat :=
  match tbl.find? (fun r => r.cvNr == cv) with
  | some r => if w = 0 then 1 else (if r.writable then 1 else 0)
  | none => 0

/-- Result of notifyCVWrite: the updated table, the side effects in
program order, and the returned value (none models the missing return when
the CV is unknown). -/
structure CVWriteResult where
  table : List cvStruct
  events : List Event
  ret : Option Nat
deriving DecidableEq

/-- The assignment cvData i value gets Value of the source: the record
with only its value field overwritten. -/
def setValue (r : cvStruct) (v : Nat) : cvStruct :=
  ⟨r.cvIndex, r.cvNr, r.applyDefault, r.writable, r.defaultValue, v⟩

/-- notifyCVWrite of the source: locate the CV in cvData; if found and the
new value differs from the cached value, write the EEPROM at the table
position, update the cache and re-render, then return the value; if found
and unchanged, just return the value; if not found, flow off the end. -/
def notifyCVWrite (tbl : List cvStruct) (cv v : Nat) : CVWriteResult :=
  match tbl.findIdx? (fun r => r.cvNr == cv) with
  | some i =>
    let r := tbl.getD i dRec
    if r.value ≠ v then
      ⟨tbl.set i (setValue r v),
       [Event.eepromWrite i v, Event.cvCacheWrite i v, Event.render], some v⟩
    else
      ⟨tbl, [], some v⟩
  | none => ⟨tbl, [], none⟩

/- Function-group constants. Modelled from the spec: the FN_GROUP enum and
FN_BIT masks come from the external NmraDcc header, which is not part of
this repository; the spec fixes the grouping (groups 1 to 5 covering
functions 0-4, 5-8, 9-12, 13-20, 21-28, group 0 unused) and states that
each function has a fixed protocol-defined bit position within its group
byte. The concrete values below follow that protocol convention. -/

def FN_0_4 : Nat := 1

def FN_5_8 : Nat := 2

def FN_9_12 : Nat := 3

def FN_13_20 : Nat := 4

def FN_21_28 : Nat := 5

def FN_LAST : Nat := 6

/-- numberOfFunctionGroups of the source (size of funcCache). -/
def numberOfFunctionGroups : Nat := FN_LAST

/-- numberOfFunctions of the source. -/
def numberOfFunctions : Nat := 29

/-- fctsEepromAddress of the source: 255 - numberOfFunctionGroups + 1. -/
def fctsEepromAddress : Nat := 255 - numberOfFunctionGroups + 1

/-- funcBitMask of the source: the fixed bit mask of each function inside
its group byte (FN_BIT_00 is bit 4; F1-F4, F5-F8 and F9-F12 use bits 0-3;
F13-F20 and F21-F28 use bits 0-7). -/
def funcBitMask : List Nat :=
  [0x10, 0x01, 0x02, 0x04, 0x08,
   0x01, 0x02, 0x04, 0x08,
   0x01, 0x02, 0x04, 0x08,
   0x01, 0x02, 0x04, 0x08, 0x10, 0x20, 0x40, 0x80,
   0x01, 0x02, 0x04, 0x08, 0x10, 0x20, 0x40, 0x80]

/-- funcGroup of the source: the owning group of each function index. -/
def funcGroup : List Nat :=
  [FN_0_4, FN_0_4, FN_0_4, FN_0_4, FN_0_4,
   FN_5_8, FN_5_8, FN_5_8, FN_5_8,
   FN_9_12, FN_9_12, FN_9_12, FN_9_12,
   FN_13_20, FN_13_20, FN_13_20, FN_13_20, FN_13_20, FN_13_20, FN_13_20, FN_13_20,
   FN_21_28, FN_21_28, FN_21_28, FN_21_28, FN_21_28, FN_21_28, FN_21_28, FN_21_28]

/-- checkFunc of the source: for funcNumber below numberOfFunctions,
return the bit of the cached group byte selected by the function's mask
(nonzero means on); otherwise return false without touching any array. -/
def checkFunc (fc : List Nat) (funcNumber : Nat) : Bool :=
  if funcNumber < numberOfFunctions then
    (fc.getD (funcGroup.getD funcNumber 0) 0) &&& (funcBitMask.getD funcNumber 0) ≠ 0
  else
    false

/-- Result of notifyDccFunc: the updated funcCache and the side effects in
program order. -/
structure FuncResult where
  funcCache : List Nat
  events : List Event
deriving DecidableEq

/-- notifyDccFunc of the source: when the received group state differs
from the cache, update the cache, re-render, then persist the whole
(already updated) funcCache array with EEPROM.put; otherwise do nothing. -/
def notifyDccFunc (fc : List Nat) (funcGrp funcState : Nat) : FuncResult :=
  if funcState ≠ fc.getD funcGrp 0 then
    ⟨fc.set funcGrp funcState,
     [Event.funcCacheWrite funcGrp funcState, Event.render,
      Event.eepromPut fctsEepromAddress (fc.set funcGrp funcState)]⟩
  else
    ⟨fc, []⟩

/-- warmWhiteLuminanceTable of the source: gamma 2.2, output range 255. -/
def warmWhiteLuminanceTable : List Nat :=
  [0, 0, 0, 1, 1, 1, 1, 1, 1, 1, 1, 1, 1, 1, 1, 1,
   1, 1, 1, 1, 1, 2, 2, 2, 2, 2, 2, 2, 2, 3, 3, 3,
   3, 3, 4, 4, 4, 4, 4, 5, 5, 5, 5, 6, 6, 6, 6, 7,
   7, 7, 8, 8, 8, 9, 9, 9, 10, 10, 10, 11, 11, 11, 12, 12,
   13, 13, 14, 14, 14, 15, 15, 16, 16, 17, 17, 18, 18, 19, 19, 20,
   20, 21, 22, 22, 23, 23, 24, 24, 25, 26, 26, 27, 28, 28, 29, 30,
   30, 31, 32, 32, 33, 34, 34, 35, 36, 37, 37, 38, 39, 40, 41, 41,
   42, 43, 44, 45, 46, 46, 47, 48, 49, 50, 51, 52, 53, 54, 55, 56,
   56, 57, 58, 59, 60, 61, 62, 63, 64, 65, 67, 68, 69, 70, 71, 72,
   73, 74, 75, 76, 78, 79, 80, 81, 82, 83, 85, 86, 87, 88, 89, 91,
   92, 93, 94, 96, 97, 98, 100, 101, 102, 104, 105, 106, 108, 109, 110, 112,
   113, 115, 116, 118, 119, 120, 122, 123, 125, 126, 128, 129, 131, 132, 134, 136,
   137, 139, 140, 142, 143, 145, 147, 148, 150, 152, 153, 155, 157, 158, 160, 162,
   163, 165, 167, 169, 170, 172, 174, 176, 177, 179, 181, 183, 185, 187, 188, 190,
   192, 194, 196, 198, 200, 202, 204, 206, 208, 210, 212, 214, 216, 218, 220, 222,
   224, 226, 228, 230, 232, 234, 236, 238, 240, 242, 245, 247, 249, 251, 253, 255]

/-- coolWhiteLuminanceTable of the source: gamma 2.2, output range 230. -/
def coolWhiteLuminanceTable : List Nat :=
  [0, 0, 0, 1, 1, 1, 1, 1, 1, 1, 1, 1, 1, 1, 1, 1,
   1, 1, 1, 1, 1, 1, 2, 2, 2, 2, 2, 2, 2, 2, 3, 3,
   3, 3, 3, 3, 4, 4, 4, 4, 4, 5, 5, 5, 5, 6, 6, 6,
   6, 7, 7, 7, 7, 8, 8, 8, 9, 9, 9, 10, 10, 10, 11, 11,
   11, 12, 12, 13, 13, 13, 14, 14, 15, 15, 16, 16, 17, 17, 17, 18,
   18, 19, 19, 20, 20, 21, 22, 22, 23, 23, 24, 24, 25, 25, 26, 27,
   27, 28, 29, 29, 30, 30, 31, 32, 32, 33, 34, 35, 35, 36, 37, 37,
   38, 39, 40, 40, 41, 42, 43, 43, 44, 45, 46, 47, 48, 48, 49, 50,
   51, 52, 53, 54, 55, 55, 56, 57, 58, 59, 60, 61, 62, 63, 64, 65,
   66, 67, 68, 69, 70, 71, 72, 73, 74, 75, 76, 77, 79, 80, 81, 82,
   83, 84, 85, 86, 88, 89, 90, 91, 92, 94, 95, 96, 97, 98, 100, 101,
   102, 104, 105, 106, 107, 109, 110, 111, 113, 114, 115, 117, 118, 119, 121, 122,
   124, 125, 127, 128, 129, 131, 132, 134, 135, 137, 138, 140, 141, 143, 144, 146,
   147, 149, 151, 152, 154, 155, 157, 159, 160, 162, 163, 165, 167, 168, 170, 172,
   173, 175, 177, 179, 180, 182, 184, 186, 187, 189, 191, 193, 194, 196, 198, 200,
   202, 204, 205, 207, 209, 211, 213, 215, 217, 219, 221, 223, 225, 227, 229, 230]

/-- The warm LED level computed by updateLights: the operands are cast to
uint16_t in the source, so the product is reduced modulo 2 to the 16th,
divided by 256, and the assignment to a uint8_t variable reduces modulo
256. -/
def warmLevel (b ct : Nat) : Nat := (b * (255 - ct)) % 65536 / 256 % 256

/-- The cool LED level computed by updateLights, with the same uint16_t
product and uint8_t assignment as warmLevel. -/
def coolLevel (b ct : Nat) : Nat := (b * ct) % 65536 / 256 % 256

/-- The cached value of the CV at table position i. -/
def valueAt (tbl : List cvStruct) (i : Nat) : Nat := (tbl.getD i dRec).value

/-- updateLights of the source, as the pair of duty-cycle bytes written to
the warm and cool channels: off when the controlling function is inactive;
raw brightness and color-temperature bytes in test mode; otherwise the
gamma table entries at the levels computed from parameter set 2 (when the
set-2 selector is not the sentinel 255 and its function is active) or from
parameter set 1. -/
def updateLights (tbl : List cvStruct) (fc : List Nat) : Nat × Nat :=
  if checkFunc fc (valueAt tbl cvLightFctCtrl) then
    if valueAt tbl cvLightTest = 0 then
      if valueAt tbl cvLightFctCtrl2 ≠ 255 ∧ checkFunc fc (valueAt tbl cvLightFctCtrl2) then
        (warmWhiteLuminanceTable.getD
           (warmLevel (valueAt tbl cvLightBrightness2) (valueAt tbl cvLightColorTemperature2)) 0,
         coolWhiteLuminanceTable.getD
           (coolLevel (valueAt tbl cvLightBrightness2) (valueAt tbl cvLightColorTemperature2)) 0)
      else
        (warmWhiteLuminanceTable.getD
           (warmLevel (valueAt tbl cvLightBrightness) (valueAt tbl cvLightColorTemperature)) 0,
         coolWhiteLuminanceTable.getD
           (coolLevel (valueAt tbl cvLightBrightness) (valueAt tbl cvLightColorTemperature)) 0)
    else
      (valueAt tbl cvLightBrightness, valueAt tbl cvLightColorTemperature)
  else
    (0, 0)

/-- Error kinds of the CV-write contract in the spec. -/
inductive WriteError where
  | NotWritable
  | NotFound
deriving DecidableEq

deriving instance DecidableEq for Except

/-- Result of a full CV-write request: the table, the side effects, and
either the echoed value or the error that rejected the operation. -/
structure WriteReqResult where
  table : List cvStruct
  events : List Event
  ret : Except WriteError Nat
deriving DecidableEq

/-- Modelled from the spec: the dispatch of a CV write request. The
external protocol library (not part of this repository) validates the CV
with notifyCVValid before invoking notifyCVWrite; a request rejected by
the validity check performs no operation, and the spec classifies the
failure as NotWritable when the CV exists but is read-only and NotFound
when the CV is unknown. -/
def writeRequest (tbl : List cvStruct) (cv v : Nat) : WriteReqResult :=
  if notifyCVValid tbl cv 1 = 1 then
    let w := notifyCVWrite tbl cv v
    ⟨w.table, w.events, Except.ok v⟩
  else
    match tbl.find? (fun r => r.cvNr == cv) with
    | some _ => ⟨tbl, [], Except.error WriteError.NotWritable⟩
    | none => ⟨tbl, [], Except.error WriteError.NotFound⟩

/-- notifyCVResetFactoryDefault of the source: arm the factory-reset
counter with the number of managed CVs. -/
def notifyCVResetFactoryDefault : Nat := nrCVs

/-- State of the factory-reset sequencer inside loop: the cvData table and
the factoryDefaultCVIndex counter, plus the side effects of one step. -/
structure LoopState where
  table : List cvStruct
  counter : Nat
  events : List Event
deriving DecidableEq

/-- One pass of the factory-reset handling in loop of the source: when the
counter is non-zero and the ready signal (dcc.isSetCVReady) is true,
decrement the counter first and, when the record at that table position
has applyDefault set, commit its default value. Modelled from the spec:
the dcc.setCV call of the external library routes the commit through the
normal write path, here notifyCVWrite. -/
def stepFactoryReset (tbl : List cvStruct) (counter : Nat) (ready : Bool) : LoopState :=
  if counter ≠ 0 ∧ ready then
    let k := counter - 1
    let r := tbl.getD k dRec
    if r.applyDefault then
      let w := notifyCVWrite tbl r.cvNr r.defaultValue
      ⟨w.table, k, w.events⟩
    else
      ⟨tbl, k, []⟩
  else
    ⟨tbl, counter, []⟩

/-- Iterate the factory-reset step n times with the ready signal true. -/
def stepN (tbl : List cvStruct) (counter : Nat) : Nat → List cvStruct × Nat
  | 0 => (tbl, counter)
  | n + 1 =>
    let s := stepFactoryReset tbl counter true
    stepN s.table s.counter n

/-- True on the persistence events (EEPROM.write and EEPROM.put). -/
def isPersistEvent : Event → Bool
  | Event.eepromWrite _ _ => true
  | Event.eepromPut _ _ => true
  | _ => false

/-- True on the in-memory cache update events. -/
def isCacheEvent : Event → Bool
  | Event.cvCacheWrite _ _ => true
  | Event.funcCacheWrite _ _ => true
  | _ => false

/-- The ordering property claimed by the spec: every cache update in the
trace is preceded by some persistence call. -/
def persistPrecedesCache (tr : List Event) : Prop :=
  ∀ j, j < tr.length → isCacheEvent (tr.getD j Event.render) = true →
    ∃ i, i < j ∧ isPersistEvent (tr.getD i Event.render) = true

instance (tr : List Event) : Decidable (persistPrecedesCache tr) := by
  unfold persistPrecedesCache
  infer_instance

/-- Boolean check that a list of naturals is sorted in non-decreasing
order between adjacent entries. -/
def isSortedLe : List Nat → Bool
  | [] => true
  | [_] => true
  | a :: b :: l => a ≤ b && isSortedLe (b :: l)

theorem isSortedLe_adjacent : ∀ (t : List Nat), isSortedLe t = true →
    ∀ k, k + 1 < t.length → t.getD k 0 ≤ t.getD (k + 1) 0 := by
  intro t
  induction t with
  | nil => intro _ k hk; simp at hk
  | cons a l ih =>
    intro h k hk
    cases l with
    | nil => simp at hk
    | cons b m =>
      rw [isSortedLe] at h
      have hab : a ≤ b := by
        have := (Bool.and_eq_true _ _).mp h
        exact of_decide_eq_true this.1
      have hrest : isSortedLe (b :: m) = true := ((Bool.and_eq_true _ _).mp h).2
      cases k with
      | zero => simpa using hab
      | succ n =>
        have := ih hrest n (by simpa using hk)
        simpa using this

theorem isSortedLe_getD_mono (t : List Nat) (h : isSortedLe t = true) :
    ∀ i j, i ≤ j → j < t.length → t.getD i 0 ≤ t.getD j 0 := by
  intro i j
  induction j with
  | zero =>
    intro hij _
    have : i = 0 := Nat.le_zero.mp hij
    rw [this]
  | succ n ih =>
    intro hij hj
    rcases Nat.lt_or_ge i (n + 1) with hlt | hge
    · have hi_le : i ≤ n := Nat.lt_succ_iff.mp hlt
      exact Nat.le_trans (ih hi_le (Nat.lt_of_succ_lt hj)) (isSortedLe_adjacent t h n hj)
    · have : i = n + 1 := Nat.le_antisymm hij hge
      rw [this]

/-- Claim C8: both luminance tables have 256 entries, map index 0 to
value 0, and are monotonically non-decreasing over the whole index
domain 0..255. -/
theorem luminanceTables_monotone_and_zero :
    warmWhiteLuminanceTable.length = 256 ∧
    coolWhiteLuminanceTable.length = 256 ∧
    warmWhiteLuminanceTable.getD 0 0 = 0 ∧
    coolWhiteLuminanceTable.getD 0 0 = 0 ∧
    (∀ i j, i ≤ j → j < 256 →
      warmWhiteLuminanceTable.getD i 0 ≤ warmWhiteLuminanceTable.getD j 0 ∧
      coolWhiteLuminanceTable.getD i 0 ≤ coolWhiteLuminanceTable.getD j 0) := by
  have hw : isSortedLe warmWhiteLuminanceTable = true := by decide
  have hc : isSortedLe coolWhiteLuminanceTable = true := by decide
  have hwl : warmWhiteLuminanceTable.length = 256 := by decide
  have hcl : coolWhiteLuminanceTable.length = 256 := by decide
  refine ⟨hwl, hcl, by decide, by decide, ?_⟩
  intro i j hij hj
  exact ⟨isSortedLe_getD_mono _ hw i j hij (by rw [hwl]; exact hj),
         isSortedLe_getD_mono _ hc i j hij (by rw [hcl]; exact hj)⟩

/-- Witness for claim C8 at the concrete indices 10 and 200. -/
theorem luminanceTables_monotone_witness :
    warmWhiteLuminanceTable.getD 10 0 ≤ warmWhiteLuminanceTable.getD 200 0 ∧
    coolWhiteLuminanceTable.getD 10 0 ≤ coolWhiteLuminanceTable.getD 200 0 :=
  luminanceTables_monotone_and_zero.2.2.2.2 10 200 (by decide) (by decide)

/-- Claim C9: for uint8 operands, the levels computed by updateLights
equal the exact rational-free formulas brightness times (255 minus
colorTemperature) over 256 and brightness times colorTemperature over
256, and both products fit in the uint16_t arithmetic type, so the
promoted multiplication never overflows. -/
theorem levels_formula_no_overflow (b ct : Nat) (hb : b ≤ 255) (hct : ct ≤ 255) :
    warmLevel b ct = b * (255 - ct) / 256 ∧
    coolLevel b ct = b * ct / 256 ∧
    b * (255 - ct) < 65536 ∧
    b * ct < 65536 := by
  have h1 : b * (255 - ct) ≤ 255 * 255 := Nat.mul_le_mul hb (by omega)
  have h2 : b * ct ≤ 255 * 255 := Nat.mul_le_mul hb hct
  have d1 : b * (255 - ct) / 256 ≤ 255 * 255 / 256 := Nat.div_le_div_right h1
  have d2 : b * ct / 256 ≤ 255 * 255 / 256 := Nat.div_le_div_right h2
  unfold warmLevel coolLevel
  rw [Nat.mod_eq_of_lt (by omega), Nat.mod_eq_of_lt (by omega),
      Nat.mod_eq_of_lt (by omega), Nat.mod_eq_of_lt (by omega)]
  exact ⟨rfl, rfl, by omega, by omega⟩

/-- Witness for claim C9 at brightness 50, colorTemperature 255. -/
theorem levels_formula_witness :
    warmLevel 50 255 = 50 * (255 - 255) / 256 ∧
    coolLevel 50 255 = 50 * 255 / 256 ∧
    50 * (255 - 255) < 65536 ∧
    50 * 255 < 65536 :=
  levels_formula_no_overflow 50 255 (by decide) (by decide)

/-- Claim C10: for every pair of uint8 brightness and colorTemperature
bytes, the computed warm and cool levels are at most 254, hence strictly
below the length 256 of both luminance tables, so the lookups performed
by updateLights are always in bounds. -/
theorem levels_in_table_bounds (b ct : Nat) (hb : b ≤ 255) (hct : ct ≤ 255) :
    warmLevel b ct ≤ 254 ∧ coolLevel b ct ≤ 254 ∧
    warmLevel b ct < warmWhiteLuminanceTable.length ∧
    coolLevel b ct < coolWhiteLuminanceTable.length := by
  obtain ⟨hw, hc, h1, h2⟩ := levels_formula_no_overflow b ct hb hct
  have hwle : warmLevel b ct ≤ 254 := by
    rw [hw]
    have hd : b * (255 - ct) / 256 ≤ 255 * 255 / 256 :=
      Nat.div_le_div_right (Nat.mul_le_mul hb (Nat.sub_le 255 ct))
    omega
  have hcle : coolLevel b ct ≤ 254 := by
    rw [hc]
    have hd : b * ct / 256 ≤ 255 * 255 / 256 :=
      Nat.div_le_div_right (Nat.mul_le_mul hb hct)
    omega
  have hwlen : warmWhiteLuminanceTable.length = 256 := by decide
  have hclen : coolWhiteLuminanceTable.length = 256 := by decide
  exact ⟨hwle, hcle, by omega, by omega⟩

/-- Witness for claim C10 at brightness 255, colorTemperature 255. -/
theorem levels_in_table_bounds_witness :
    warmLevel 255 255 ≤ 254 ∧ coolLevel 255 255 ≤ 254 ∧
    warmLevel 255 255 < warmWhiteLuminanceTable.length ∧
    coolLevel 255 255 < coolWhiteLuminanceTable.length :=
  levels_in_table_bounds 255 255 (by decide) (by decide)

/-- Claim C2: on a CV number absent from the table, notifyCVRead reaches
the end of its loop without executing any return statement: the source
yields no defined value at all (undefined behaviour), rather than the
well-defined sentinel or error the specification requires. CV number 2 is
not in the table. -/
theorem notifyCVRead_unknown_has_no_defined_result :
    notifyCVRead cvData 2 = none ∧
    cvData.find? (fun r => r.cvNr == 2) = none := by
  decide

/-- Claim C7: for every function index at least 29 the query returns
false and no array is indexed; for every index below 29 the group index
read from funcGroup lies inside the 6-entry funcCache and the index lies
inside both 29-entry tables, and the result is the bit of the cached
group byte selected by the function's fixed mask. -/
theorem checkFunc_bounds_and_bit (fc : List Nat) (n : Nat) :
    (29 ≤ n → checkFunc fc n = false) ∧
    (n < 29 →
      funcGroup.getD n 0 < numberOfFunctionGroups ∧
      n < funcGroup.length ∧ n < funcBitMask.length ∧
      checkFunc fc n =
        decide ((fc.getD (funcGroup.getD n 0) 0) &&& (funcBitMask.getD n 0) ≠ 0)) := by
  constructor
  · intro h
    have hn : ¬ n < numberOfFunctions := by
      unfold numberOfFunctions; omega
    simp [checkFunc, hn]
  · intro h
    have hb : ∀ m, m < 29 →
        funcGroup.getD m 0 < numberOfFunctionGroups ∧
        m < funcGroup.length ∧ m < funcBitMask.length := by decide
    have hn : n < numberOfFunctions := by
      unfold numberOfFunctions; omega
    refine ⟨(hb n h).1, (hb n h).2.1, (hb n h).2.2, ?_⟩
    simp [checkFunc, hn]

/-- Witness for claim C7 at index 30 (out of range) and index 1 with
function F1 active in its group byte. -/
theorem checkFunc_bounds_witness :
    (29 ≤ 30 ∧ checkFunc [0, 1, 0, 0, 0, 0] 30 = false) ∧
    ((1 : Nat) < 29 ∧ funcGroup.getD 1 0 < numberOfFunctionGroups) :=
  ⟨⟨by decide, (checkFunc_bounds_and_bit [0, 1, 0, 0, 0, 0] 30).1 (by decide)⟩,
   ⟨by decide, ((checkFunc_bounds_and_bit [0, 1, 0, 0, 0, 0] 1).2 (by decide)).1⟩⟩

/-- Claim C6: a CV write whose value equals the cached value performs no
EEPROM write, no cache update and no re-render, returning the value with
the table untouched; a function-group event whose bits equal the cached
group byte performs no side effect at all. -/
theorem noop_write_and_func_change_nothing (tbl : List cvStruct) (cv v i : Nat)
    (fc : List Nat) (g bits : Nat) :
    (tbl.findIdx? (fun r => r.cvNr == cv) = some i → (tbl.getD i dRec).value = v →
      notifyCVWrite tbl cv v = ⟨tbl, [], some v⟩) ∧
    (fc.getD g 0 = bits → notifyDccFunc fc g bits = ⟨fc, []⟩) := by
  constructor
  · intro hf hv
    have hv2 : (tbl[i]?.getD dRec).value = v := by simpa using hv
    simp [notifyCVWrite, hf, hv2]
  · intro h
    have h2 : fc[g]?.getD 0 = bits := by simpa using h
    simp [notifyDccFunc, h2]

/-- Witness for claim C6: rewriting CV 1 with its cached value 0 and
re-sending group 1 bits 0 on the initial state both change nothing. -/
theorem noop_write_witness :
    notifyCVWrite cvData 1 0 = ⟨cvData, [], some 0⟩ ∧
    notifyDccFunc [0, 0, 0, 0, 0, 0] 1 0 = ⟨[0, 0, 0, 0, 0, 0], []⟩ :=
  ⟨(noop_write_and_func_change_nothing cvData 1 0 0 [] 0 0).1 (by decide) (by decide),
   (noop_write_and_func_change_nothing cvData 1 0 0 [0, 0, 0, 0, 0, 0] 1 0).2 (by decide)⟩

/-- Claim C1: a write request for a CV that exists but is read-only is
rejected as NotWritable, and one for an unknown CV as NotFound; in both
cases the table is unchanged and no persistence, cache-update or render
event occurs. -/
theorem writeRequest_error_cases (tbl : List cvStruct) (cv v : Nat) (r : cvStruct) :
    (tbl.find? (fun s => s.cvNr == cv) = some r → r.writable = false →
      writeRequest tbl cv v = ⟨tbl, [], Except.error WriteError.NotWritable⟩) ∧
    (tbl.find? (fun s => s.cvNr == cv) = none →
      writeRequest tbl cv v = ⟨tbl, [], Except.error WriteError.NotFound⟩) := by
  constructor
  · intro hf hw
    simp [writeRequest, notifyCVValid, hf, hw]
  · intro hf
    simp [writeRequest, notifyCVValid, hf]

/-- Witness for claim C1: CV 7 (manufacturer version) exists and is
read-only, CV 2 is unknown; both requests are rejected with the table
untouched. -/
theorem writeRequest_error_witness :
    writeRequest cvData 7 5 = ⟨cvData, [], Except.error WriteError.NotWritable⟩ ∧
    writeRequest cvData 2 5 = ⟨cvData, [], Except.error WriteError.NotFound⟩ :=
  ⟨(writeRequest_error_cases cvData 7 5
      ⟨cvManufacturerVersionNumber, 7, false, false, 0, 0⟩).1 (by decide) (by decide),
   (writeRequest_error_cases cvData 2 5
      ⟨cvManufacturerVersionNumber, 7, false, false, 0, 0⟩).2 (by decide)⟩

/-- The cached values of the scenario of claim C3: primary brightness 50,
colorTemperature 255, primary function selector 1, secondary selector at
the sentinel 255, test-mode CV at its default 0, the remaining CVs at
their defaults. -/
def scenarioValues : Nat → Nat
  | 0 => 3
  | 6 => 2
  | 7 => 50
  | 8 => 255
  | 9 => 1
  | 10 => 30
  | 11 => 255
  | 12 => 255
  | 13 => 0
  | _ => 0

/-- The cvData table of the scenario of claim C3. -/
def scenarioTable : List cvStruct := cvDataWith scenarioValues

/-- The funcCache of the scenario of claim C3: function F1 (the primary
selector) active, nothing else. -/
def scenarioFuncCache : List Nat := [0, 1, 0, 0, 0, 0]

/-- Counterexample to claim C3: in the stated scenario the controlling
function is active, the secondary selector is the sentinel and test mode
is off, yet the cool level computed by updateLights is 49, not the
claimed 50 (50 times 255 is 12750, whose integer quotient by 256 is 49). -/
theorem scenario_coolLevel_not_50 :
    checkFunc scenarioFuncCache (valueAt scenarioTable cvLightFctCtrl) = true ∧
    valueAt scenarioTable cvLightFctCtrl2 = 255 ∧
    valueAt scenarioTable cvLightTest = 0 ∧
    valueAt scenarioTable cvLightBrightness = 50 ∧
    valueAt scenarioTable cvLightColorTemperature = 255 ∧
    coolLevel 50 255 ≠ 50 := by
  decide

/-- Claim C3 as amended: in the stated scenario updateLights computes
warmLevel 0 and coolLevel 49 and outputs the warm gamma entry at 0 and
the cool gamma entry at 49 (numerically the same output bytes as the
entries at 0 and 50, since the cool table repeats the value 7 there). -/
theorem scenario_levels_and_output :
    warmLevel 50 255 = 0 ∧
    coolLevel 50 255 = 49 ∧
    updateLights scenarioTable scenarioFuncCache =
      (warmWhiteLuminanceTable.getD 0 0, coolWhiteLuminanceTable.getD 49 0) ∧
    coolWhiteLuminanceTable.getD 49 0 = coolWhiteLuminanceTable.getD 50 0 := by
  decide

/-- Counterexample to claim C4: a function-group change (group 1 going
from bits 0 to bits 1) updates the in-memory funcCache before the
persistence call: its trace has no persistence event before the cache
write, because EEPROM.put persists the already-updated cache array. -/
theorem funcChange_cache_before_persist :
    ¬ persistPrecedesCache (notifyDccFunc [0, 0, 0, 0, 0, 0] 1 1).events := by
  decide

/-- Claim C4 as amended: a CV write that changes the value issues the
EEPROM persistence before the cache update (trace eepromWrite, then
cvCacheWrite, then render), while a function-group change updates the
cache first, re-renders, and then persists the whole updated cache block
(trace funcCacheWrite, then render, then eepromPut). -/
theorem persistence_cache_order (tbl : List cvStruct) (cv v i : Nat)
    (fc : List Nat) (g bits : Nat) :
    (tbl.findIdx? (fun r => r.cvNr == cv) = some i → (tbl.getD i dRec).value ≠ v →
      (notifyCVWrite tbl cv v).events =
        [Event.eepromWrite i v, Event.cvCacheWrite i v, Event.render] ∧
      persistPrecedesCache (notifyCVWrite tbl cv v).events) ∧
    (bits ≠ fc.getD g 0 →
      (notifyDccFunc fc g bits).events =
        [Event.funcCacheWrite g bits, Event.render,
         Event.eepromPut fctsEepromAddress (fc.set g bits)]) := by
  constructor
  · intro hf hv
    have hev : (notifyCVWrite tbl cv v).events =
        [Event.eepromWrite i v, Event.cvCacheWrite i v, Event.render] := by
      have hv2 : ¬ (tbl[i]?.getD dRec).value = v := by simpa using hv
      simp [notifyCVWrite, hf, hv2]
    refine ⟨hev, ?_⟩
    rw [hev]
    intro j hj hc
    match j, hj with
    | 0, _ => simp [isCacheEvent] at hc
    | 1, _ => exact ⟨0, by omega, by simp [isPersistEvent]⟩
    | 2, _ => simp [isCacheEvent] at hc
  · intro h
    have h2 : ¬ bits = fc[g]?.getD 0 := by simpa using h
    simp [notifyDccFunc, h2]

/-- Witness for claim C4 as amended: writing value 5 to CV 1 on the
initial table, and turning function group 1 to bits 1 on the zero cache. -/
theorem persistence_cache_order_witness :
    (notifyCVWrite cvData 1 5).events =
      [Event.eepromWrite 0 5, Event.cvCacheWrite 0 5, Event.render] ∧
    (notifyDccFunc [0, 0, 0, 0, 0, 0] 1 1).events =
      [Event.funcCacheWrite 1 1, Event.render,
       Event.eepromPut fctsEepromAddress [0, 1, 0, 0, 0, 0]] :=
  ⟨((persistence_cache_order cvData 1 5 0 [] 0 0).1 (by decide) (by decide)).1,
   by
    have h := (persistence_cache_order cvData 1 5 0 [0, 0, 0, 0, 0, 0] 1 1).2 (by decide)
    simpa using h⟩

theorem setValue_self (r : cvStruct) (v : Nat) (h : r.value = v) : setValue r v = r := by
  cases r with
  | mk a b c d e f => simp_all [setValue]

theorem set_getD_self {α : Type} : ∀ (l : List α) (i : Nat) (d : α), i < l.length →
    l.set i (l.getD i d) = l := by
  intro l
  induction l with
  | nil => intro i d h; simp at h
  | cons a t ih =>
    intro i d h
    cases i with
    | zero => simp
    | succ n =>
      simp only [List.set_cons_succ, List.getD_cons_succ, ih n d (by simpa using h)]

/-- Whenever the CV is found at table position i, the table produced by
notifyCVWrite is the original table with the value field at position i
overwritten, whether or not an EEPROM write happened. -/
theorem notifyCVWrite_found (tbl : List cvStruct) (cv v i : Nat)
    (h : tbl.findIdx? (fun r => r.cvNr == cv) = some i) :
    (notifyCVWrite tbl cv v).table = tbl.set i (setValue (tbl.getD i dRec) v) := by
  have hlen : i < tbl.length := (List.findIdx?_eq_some_iff_findIdx_eq.mp h).1
  by_cases hv : (tbl.getD i dRec).value = v
  · have hv2 : (tbl[i]?.getD dRec).value = v := by simpa using hv
    have h1 : (notifyCVWrite tbl cv v).table = tbl := by simp [notifyCVWrite, h, hv2]
    rw [h1, setValue_self _ _ hv, set_getD_self _ _ _ hlen]
  · have hv2 : ¬ (tbl[i]?.getD dRec).value = v := by simpa using hv
    simp [notifyCVWrite, h, hv2]

theorem stepN_zero (tbl : List cvStruct) (c : Nat) : stepN tbl c 0 = (tbl, c) := rfl

/-- A single notifyCVWrite call emits at most one persistence event and at
most one cache-update event. -/
theorem notifyCVWrite_events_counts (tbl : List cvStruct) (cv v : Nat) :
    (notifyCVWrite tbl cv v).events.countP isPersistEvent ≤ 1 ∧
    (notifyCVWrite tbl cv v).events.countP isCacheEvent ≤ 1 := by
  unfold notifyCVWrite
  cases hf : tbl.findIdx? (fun r => r.cvNr == cv) with
  | none => simp
  | some i =>
    by_cases hv : (tbl.getD i dRec).value = v
    · have hv2 : (tbl[i]?.getD dRec).value = v := by simpa using hv
      simp [hv2]
    · have hv2 : ¬ (tbl[i]?.getD dRec).value = v := by simpa using hv
      simp [hv2, isPersistEvent, isCacheEvent]

/-- One factory-reset iteration with the ready signal true on a record
with applyDefault set: the counter moves from n plus 1 to n and the
record at position n takes its default value. -/
theorem stepN_succ_apply (tbl : List cvStruct) (n m : Nat)
    (hr : (tbl[n]?.getD dRec).applyDefault = true)
    (hf : tbl.findIdx? (fun r => r.cvNr == (tbl[n]?.getD dRec).cvNr) = some n) :
    stepN tbl (n + 1) (m + 1) =
      stepN (tbl.set n (setValue (tbl.getD n dRec) (tbl.getD n dRec).defaultValue)) n m := by
  have h1 : (stepFactoryReset tbl (n + 1) true).table =
      (notifyCVWrite tbl (tbl.getD n dRec).cvNr (tbl.getD n dRec).defaultValue).table := by
    simp [stepFactoryReset, hr]
  have h2 : (stepFactoryReset tbl (n + 1) true).counter = n := by
    simp [stepFactoryReset, hr]
  have hf2 : tbl.findIdx? (fun r => r.cvNr == (tbl.getD n dRec).cvNr) = some n := by
    simpa using hf
  rw [stepN, h1, h2, notifyCVWrite_found _ _ _ _ hf2]

/-- One factory-reset iteration with the ready signal true on a record
with applyDefault cleared: only the counter moves. -/
theorem stepN_succ_skip (tbl : List cvStruct) (n m : Nat)
    (hr : (tbl[n]?.getD dRec).applyDefault = false) :
    stepN tbl (n + 1) (m + 1) = stepN tbl n m := by
  have h1 : stepFactoryReset tbl (n + 1) true = ⟨tbl, n, []⟩ := by
    simp [stepFactoryReset, hr]
  rw [stepN, h1]

/-- Claim C5: from any cached values vs, arming the factory reset with
the CV count and running exactly 14 ready steps leaves every record with
applyDefault true at its default value, leaves the two applyDefault false
records (manufacturer version and ID) at their pre-reset values vs 1 and
vs 2, and ends with the counter at 0; moreover any single step performs
at most one persistence event and at most one cache update, so each ready
signal commits at most one CV. -/
theorem factoryReset_restores_defaults :
    (∀ vs : Nat → Nat,
      stepN (cvDataWith vs) notifyCVResetFactoryDefault 14 =
        ([⟨cvPrimaryAddress, 1, true, true, 3, 3⟩,
          ⟨cvManufacturerVersionNumber, 7, false, false, 0, vs 1⟩,
          ⟨cvManufacturerIDNumber, 8, false, false, 0, vs 2⟩,
          ⟨cvExtendedAddressMSB, 17, true, true, 0, 0⟩,
          ⟨cvExtendedAddressLSB, 18, true, true, 0, 0⟩,
          ⟨cvConsistAddress, 19, true, true, 0, 0⟩,
          ⟨cvModeControl, 29, true, true, 2, 2⟩,
          ⟨cvLightBrightness, 1000, true, true, 50, 50⟩,
          ⟨cvLightColorTemperature, 1001, true, true, 255, 255⟩,
          ⟨cvLightFctCtrl, 1002, true, true, 1, 1⟩,
          ⟨cvLightBrightness2, 1003, true, true, 30, 30⟩,
          ⟨cvLightColorTemperature2, 1004, true, true, 255, 255⟩,
          ⟨cvLightFctCtrl2, 1005, true, true, 20, 20⟩,
          ⟨cvLightTest, 1010, true, true, 0, 0⟩], 0)) ∧
    (∀ tbl c ready,
      ((stepFactoryReset tbl c ready).events.countP isPersistEvent ≤ 1 ∧
       (stepFactoryReset tbl c ready).events.countP isCacheEvent ≤ 1)) := by
  constructor
  · intro vs
    rw [show notifyCVResetFactoryDefault = 14 from rfl]
    simp only [cvDataWith]
    simp [stepN_succ_apply, stepN_succ_skip, stepN_zero, setValue,
          cvPrimaryAddress, cvManufacturerVersionNumber, cvManufacturerIDNumber,
          cvExtendedAddressMSB, cvExtendedAddressLSB, cvConsistAddress, cvModeControl,
          cvLightBrightness, cvLightColorTemperature, cvLightFctCtrl,
          cvLightBrightness2, cvLightColorTemperature2, cvLightFctCtrl2, cvLightTest]
  · intro tbl c ready
    by_cases hcond : c ≠ 0 ∧ ready = true
    · by_cases hca : (tbl[c - 1]?.getD dRec).applyDefault = true
      · have he : (stepFactoryReset tbl c ready).events =
            (notifyCVWrite tbl (tbl[c - 1]?.getD dRec).cvNr
              (tbl[c - 1]?.getD dRec).defaultValue).events := by
          simp [stepFactoryReset, hcond.1, hcond.2, hca]
        rw [he]
        exact notifyCVWrite_events_counts _ _ _
      · have he : (stepFactoryReset tbl c ready).events = [] := by
          simp [stepFactoryReset, hcond.1, hcond.2, hca]
        rw [he]
        simp
    · have he : (stepFactoryReset tbl c ready).events = [] := by
        unfold stepFactoryReset
        rw [if_neg hcond]
      rw [he]
      simp

/-- Witness for claim C5: running the reset from the table state with
every cached value 9 restores every applyDefault record to its default
and keeps the two read-only manufacturer records at 9. -/
theorem factoryReset_restores_defaults_witness :
    stepN (cvDataWith (fun _ => 9)) notifyCVResetFactoryDefault 14 =
      ([⟨cvPrimaryAddress, 1, true, true, 3, 3⟩,
        ⟨cvManufacturerVersionNumber, 7, false, false, 0, 9⟩,
        ⟨cvManufacturerIDNumber, 8, false, false, 0, 9⟩,
        ⟨cvExtendedAddressMSB, 17, true, true, 0, 0⟩,
        ⟨cvExtendedAddressLSB, 18, true, true, 0, 0⟩,
        ⟨cvConsistAddress, 19, true, true, 0, 0⟩,
        ⟨cvModeControl, 29, true, true, 2, 2⟩,
        ⟨cvLightBrightness, 1000, true, true, 50, 50⟩,
        ⟨cvLightColorTemperature, 1001, true, true, 255, 255⟩,
        ⟨cvLightFctCtrl, 1002, true, true, 1, 1⟩,
        ⟨cvLightBrightness2, 1003, true, true, 30, 30⟩,
        ⟨cvLightColorTemperature2, 1004, true, true, 255, 255⟩,
        ⟨cvLightFctCtrl2, 1005, true, true, 20, 20⟩,
        ⟨cvLightTest, 1010, true, true, 0, 0⟩], 0) := by
  have h := factoryReset_restores_defaults.1 (fun _ => 9)
  simpa using h

